import Mathlib

/-!
Verification of the Hide-and-Seek game engine (`src/main.py`).

The development shallowly embeds the `HideAndSeekGame` class: payoff-matrix
construction, the place-type assigner, the duality cross-check of the LP
solver, the round/score bookkeeping, the automated simulation loop, and the
save/load persistence boundary.  Machine floats are idealized as exact
rationals; the two `scipy.optimize.linprog` calls are abstracted as oracle
results (`LPResult`) fed to the code that consumes them; Python's
process-wide random source is abstracted as explicit draw/shuffle/move
parameters.  A 2D distance whose square-root argument can be negative (the
`(x1-x2)*2 + (y1-y2)*2` expression of `calculate_distance`) is represented
symbolically so that the NaN case is captured exactly.
-/

namespace HideAndSeek

/-- Concealment-difficulty category, `0 = Hard`, `1 = Neutral`, `2 = Easy`
(the integers used by `generate_place_types` / the `payoffs` dict keys). -/
abbrev Category := Fin 3

/-- The `payoffs` table of `generate_payoff_matrix` (src/main.py lines 74-79):
`type -> (found_payoff, not_found_payoff)` with entries
`0 ↦ (-6, 4)`, `1 ↦ (-3, 1.5)`, `2 ↦ (-1, 0.5)`. -/
def payoffs : Category → ℚ × ℚ
  | ⟨0, _⟩ => (-6, 4)
  | ⟨1, _⟩ => (-3, 3/2)
  | ⟨2, _⟩ => (-1, 1/2)

/-- Result of `calculate_distance` (src/main.py lines 56-67).
For a 1D world the scaled distance `|pos1-pos2| / (world_size-1)` is an exact
rational (`lin`).  For a 2D world the code computes
`sqrt((x1-x2)*2 + (y1-y2)*2) / sqrt((rows-1)*2 + (cols-1)*2)`; we keep the two
square-root arguments symbolically (`grid rad maxRad`), the value being
`√(rad) / √(maxRad)` when `rad ≥ 0` and NaN when `rad < 0`. -/
inductive DistVal where
  | lin (d : ℚ)
  | grid (rad maxRad : ℤ)
deriving DecidableEq, Repr

/-- A payoff-matrix entry.  `num q` is an exact rational value; `diagSq` /
`offSq` record the proximity-scaled 2D entries `base * (0.5 + 0.5 * √(rad/maxRad))`
resp. `base * (1.5 - √(rad/maxRad))` with a non-negative radicand; `nan` is the
float NaN produced by `np.sqrt` of a negative argument. -/
inductive Entry where
  | num (q : ℚ)
  | diagSq (base : ℚ) (rad maxRad : ℤ)
  | offSq (base : ℚ) (rad maxRad : ℤ)
  | nan
deriving DecidableEq, Repr

/-- Rational value of an entry; `0` is a placeholder for the symbolic/NaN
constructors and is only consulted on configurations proven to yield `num`. -/
def entryToQ : Entry → ℚ
  | Entry.num q => q
  | _ => 0

/-- `calculate_distance` (src/main.py lines 56-67).  Note the source's
`(x1-x2)*2 + (y1-y2)*2` multiplies by 2 instead of squaring; the embedding
reproduces that expression exactly. -/
def calculate_distance (is_2d : Bool) (rows cols world_size : ℕ)
    (pos1 pos2 : ℕ) : DistVal :=
  if is_2d then
    let x1 : ℤ := (pos1 / cols : ℕ)
    let y1 : ℤ := (pos1 % cols : ℕ)
    let x2 : ℤ := (pos2 / cols : ℕ)
    let y2 : ℤ := (pos2 % cols : ℕ)
    DistVal.grid ((x1 - x2) * 2 + (y1 - y2) * 2)
      (((rows : ℤ) - 1) * 2 + ((cols : ℤ) - 1) * 2)
  else
    DistVal.lin (|(pos1 : ℚ) - (pos2 : ℚ)| / ((world_size : ℚ) - 1))

/-- The proximity scaling of `generate_payoff_matrix`:
diagonal entries `base * (0.5 + 0.5*distance)` (line 87), off-diagonal entries
`base * (1.5 - distance)` (line 94).  A negative 2D radicand propagates NaN. -/
def applyProx (diag : Bool) (base : ℚ) : DistVal → Entry
  | DistVal.lin d =>
      if diag then Entry.num (base * (1/2 + 1/2 * d))
      else Entry.num (base * (3/2 - d))
  | DistVal.grid rad maxRad =>
      if rad < 0 then Entry.nan
      else if diag then Entry.diagSq base rad maxRad
      else Entry.offSq base rad maxRad

/-- `generate_payoff_matrix` (src/main.py lines 69-98), as the function giving
the entry at `(h, s)`.  `place_types` is the category assignment
(`self.place_types` indexed as a function). -/
def generate_payoff_matrix (world_size : ℕ) (use_proximity is_2d : Bool)
    (rows cols : ℕ) (place_types : ℕ → Category) (h s : ℕ) : Entry :=
  if h = s then
    let base := (payoffs (place_types h)).1
    if use_proximity then
      applyProx true base (calculate_distance is_2d rows cols world_size h s)
    else Entry.num base
  else
    let base := (payoffs (place_types h)).2
    if use_proximity then
      applyProx false base (calculate_distance is_2d rows cols world_size h s)
    else Entry.num base

/-- The `while world_size % self.rows != 0: self.rows -= 1` loop of `init`
(src/main.py lines 20-22), descending from the given start value. -/
def rows_adjust (world_size : ℕ) : ℕ → ℕ
  | 0 => 0
  | r + 1 => if world_size % (r + 1) = 0 then r + 1 else rows_adjust world_size r

/-- Grid row count chosen by `init` (src/main.py lines 19-26). -/
def init_rows (world_size : ℕ) (is_2d : Bool) : ℕ :=
  if is_2d then rows_adjust world_size (Nat.sqrt world_size) else 1

/-- Grid column count chosen by `init` (src/main.py lines 19-26). -/
def init_cols (world_size : ℕ) (is_2d : Bool) : ℕ :=
  if is_2d then world_size / init_rows world_size is_2d else world_size

/-- The list built by `generate_place_types` (src/main.py lines 41-54) before
the final `random.shuffle`: the seed `[0, 1, 2]`, extended by the
`random.choices` draws only when `remaining = world_size - 3 > 0`.  `draws`
stands for the random sample; `random.choices(k=remaining)` returns exactly
`remaining` elements, imposed as a hypothesis where needed. -/
def pre_shuffle_place_types (world_size : ℕ) (draws : List Category) :
    List Category :=
  [0, 1, 2] ++ (if world_size - 3 > 0 then draws else [])

/-- `generate_place_types` (src/main.py lines 41-54); `shuffle` abstracts
`random.shuffle`, constrained to be a permutation in the theorems. -/
def generate_place_types (world_size : ℕ) (draws : List Category)
    (shuffle : List Category → List Category) : List Category :=
  shuffle (pre_shuffle_place_types world_size draws)

/-- Player role; `self.human_role` holds `"hider"`, `"seeker"` or `None`. -/
inductive Role where
  | hider
  | seeker
deriving DecidableEq, Repr

/-- Python-level error outcomes relevant to the embedded methods.
`assertionError` is the bare `assert` of line 152; `nameError` is the
reference to the unbound local `game_value` when the hider LP did not
succeed; `keyError` is a missing dict key in `load_state`; `ioError` is a
file-read/JSON-parse failure.  `solverInconsistency` is modelled from the
spec: §7's error taxonomy names a dedicated `SolverInconsistency` error,
which does not exist anywhere in the code. -/
inductive PyErr where
  | assertionError
  | nameError
  | keyError
  | ioError
  | solverInconsistency
deriving DecidableEq, Repr

/-- Outcome of one `scipy.optimize.linprog` call, as consumed by
`calculate_optimal_strategies`: the `success` flag, the solution vector `x`
(strategy probabilities followed by the value variable), and the optimal
objective `fun` (named `objFun` since `fun` is reserved). -/
structure LPResult where
  success : Bool
  x : List ℚ
  objFun : ℚ
deriving DecidableEq, Repr

/-- The mutable state of a `HideAndSeekGame` object (the fields the embedded
methods read and write).  The payoff matrix is held as its row-major rational
values, as after a load or a construction with real-valued entries. -/
@[ext] structure GameState where
  world_size : ℕ
  use_proximity : Bool
  is_2d : Bool
  rows : ℕ
  cols : ℕ
  place_types : List ℕ
  payoff_matrix : List (List ℚ)
  human_role : Option Role
  human_score : ℚ
  computer_score : ℚ
  rounds_played : ℕ
  human_wins : ℕ
  computer_wins : ℕ
  hider_probabilities : List ℚ
  seeker_probabilities : List ℚ
deriving DecidableEq, Repr

/-- Row-major matrix lookup `self.payoff_matrix[h, s]` (defaulting to `0` out
of bounds; all uses stay in bounds). -/
def matrixAt (m : List (List ℚ)) (h s : ℕ) : ℚ :=
  (m.getD h []).getD s 0

/-- `update_scores` (src/main.py lines 186-201): the round's winner is
credited with the magnitude of the payoff; `hider_pos`/`seeker_pos` are
accepted and ignored exactly as in the source. -/
def update_scores (g : GameState) (score : ℚ) (hider_pos seeker_pos : ℕ) :
    GameState :=
  if g.human_role = some Role.hider then
    if score > 0 then
      { g with human_score := g.human_score + score,
               human_wins := g.human_wins + 1 }
    else
      { g with computer_score := g.computer_score - score,
               computer_wins := g.computer_wins + 1 }
  else
    if score > 0 then
      { g with computer_score := g.computer_score + score,
               computer_wins := g.computer_wins + 1 }
    else
      { g with human_score := g.human_score - score,
               human_wins := g.human_wins + 1 }

/-- `play_round` (src/main.py lines 171-184) given both moves (the computer
move abstracts the `np.random.choice` sample of `get_computer_move`).
Returns the updated state and the matrix-sourced score. -/
def play_round (g : GameState) (human_move computer_move : ℕ) :
    GameState × ℚ :=
  let hider_pos := if g.human_role = some Role.hider then human_move else computer_move
  let seeker_pos := if g.human_role = some Role.hider then computer_move else human_move
  let score := matrixAt g.payoff_matrix hider_pos seeker_pos
  let g1 := update_scores g score hider_pos seeker_pos
  ({ g1 with rounds_played := g1.rounds_played + 1 }, score)

/-- The payoff a round with moves `mv = (human_move, computer_move)` reads
from the matrix of `g` (the `score` local of `play_round`). -/
def roundScore (g : GameState) (mv : ℕ × ℕ) : ℚ :=
  let hider_pos := if g.human_role = some Role.hider then mv.1 else mv.2
  let seeker_pos := if g.human_role = some Role.hider then mv.2 else mv.1
  matrixAt g.payoff_matrix hider_pos seeker_pos

/-- A sequence of `play_round` calls (each item is the pair of moves of one
round). -/
def playRounds (g : GameState) : List (ℕ × ℕ) → GameState
  | [] => g
  | mv :: rest => playRounds (play_round g mv.1 mv.2).1 rest

/-- The `original_state` dict snapshot of `run_simulation`
(src/main.py lines 222-228). -/
structure ScoreSnapshot where
  human_score : ℚ
  computer_score : ℚ
  rounds_played : ℕ
  human_wins : ℕ
  computer_wins : ℕ
deriving DecidableEq, Repr

/-- Take the `original_state` snapshot. -/
def snapshot_scores (g : GameState) : ScoreSnapshot :=
  ⟨g.human_score, g.computer_score, g.rounds_played, g.human_wins,
   g.computer_wins⟩

/-- The `setattr` restoration loop of `run_simulation`
(src/main.py lines 247-249). -/
def restore_scores (g : GameState) (o : ScoreSnapshot) : GameState :=
  { g with human_score := o.human_score, computer_score := o.computer_score,
           rounds_played := o.rounds_played, human_wins := o.human_wins,
           computer_wins := o.computer_wins }

/-- The `results` dict of `run_simulation` (src/main.py lines 239-245). -/
structure SimResult where
  human_score : ℚ
  computer_score : ℚ
  human_wins : ℕ
  computer_wins : ℕ
  rounds_played : ℕ
deriving DecidableEq, Repr

/-- The `for _ in range(rounds)` loop of `run_simulation` together with the
result construction and the restoration (src/main.py lines 235-251).  Each
oracle item is the `random.randint` human move paired with the outcome of the
`np.random.choice` draw inside `play_round`; a failed draw raises out of the
loop before any mutation of that round, leaving the current state in place
(the source has no try/finally). -/
def sim_loop (original : ScoreSnapshot) (rounds : ℕ) :
    GameState → List (ℕ × Except Unit ℕ) → GameState × Except Unit SimResult
  | cur, [] =>
      (restore_scores cur original,
       Except.ok ⟨cur.human_score, cur.computer_score, cur.human_wins,
                  cur.computer_wins, rounds⟩)
  | cur, (hm, draw) :: rest =>
      match draw with
      | Except.error e => (cur, Except.error e)
      | Except.ok cm => sim_loop original rounds (play_round cur hm cm).1 rest

/-- `run_simulation` (src/main.py lines 220-251): snapshot, zero the live
counters, run the rounds, build the report, restore on normal completion. -/
def run_simulation (g : GameState) (oracle : List (ℕ × Except Unit ℕ)) :
    GameState × Except Unit SimResult :=
  sim_loop (snapshot_scores g) oracle.length
    { g with human_score := 0, computer_score := 0, human_wins := 0,
             computer_wins := 0, rounds_played := 0 }
    oracle

/-- `calculate_optimal_strategies` (src/main.py lines 100-152) with the two
`linprog` calls abstracted as oracle results `hr` (hider LP) and `sr` (seeker
LP).  Mirrors the source exactly: the hider block assigns
`hider_probabilities = x[:-1]` and binds `game_value = -fun` only on success;
the seeker block assigns `seeker_probabilities = x[:-1]` on success and then
executes `assert abs(game_value - seeker_result.fun) < 1e-6`, which raises a
bare `AssertionError` on failure and a `NameError` when `game_value` was
never bound.  Returns the state after all mutations performed before any
raise, with the raised error if any. -/
def calculate_optimal_strategies (g : GameState) (hr sr : LPResult) :
    GameState × Option PyErr :=
  let g1 := if hr.success then { g with hider_probabilities := hr.x.dropLast } else g
  let game_value : Option ℚ := if hr.success then some (-hr.objFun) else none
  if sr.success then
    let g2 := { g1 with seeker_probabilities := sr.x.dropLast }
    match game_value with
    | none => (g2, some PyErr.nameError)
    | some gv =>
        if |gv - sr.objFun| < 1/1000000 then (g2, none)
        else (g2, some PyErr.assertionError)
  else (g1, none)

/-- The persisted JSON record consumed by `load_state` (src/main.py
lines 272-291; shape produced by `save_state`, lines 253-270).  Every field
is optional: a missing key raises `KeyError` at its access site. -/
structure SavedRecord where
  world_size : Option ℕ
  use_proximity : Option Bool
  is_2d : Option Bool
  place_types : Option (List ℕ)
  payoff_matrix : Option (List (List ℚ))
  human_role : Option (Option Role)
  human_score : Option ℚ
  computer_score : Option ℚ
  rounds_played : Option ℕ
  human_wins : Option ℕ
  computer_wins : Option ℕ
deriving Repr

/-- `load_state` (src/main.py lines 272-291).  `file` is the outcome of
`open` + `json.load` (an unreadable or malformed file raises before any
assignment).  The fields are then assigned to `self` one at a time in source
order, with `rows`/`cols` recomputed between `is_2d` and `place_types`
(lines 280-281: `int(np.sqrt(world_size))` with no divisor adjustment);
a missing key aborts mid-sequence, leaving every earlier assignment in
place.  Finally `calculate_optimal_strategies` runs on the loaded state. -/
def load_state (g : GameState) (file : Except Unit SavedRecord)
    (hr sr : LPResult) : GameState × Option PyErr :=
  match file with
  | Except.error _ => (g, some PyErr.ioError)
  | Except.ok st =>
    match st.world_size with
    | none => (g, some PyErr.keyError)
    | some ws =>
      let g := { g with world_size := ws }
      match st.use_proximity with
      | none => (g, some PyErr.keyError)
      | some up =>
        let g := { g with use_proximity := up }
        match st.is_2d with
        | none => (g, some PyErr.keyError)
        | some i2 =>
          let g := { g with is_2d := i2 }
          let g := { g with rows := if i2 then Nat.sqrt g.world_size else 1 }
          let g := { g with cols := if i2 then g.world_size / g.rows else g.world_size }
          match st.place_types with
          | none => (g, some PyErr.keyError)
          | some pt =>
            let g := { g with place_types := pt }
            match st.payoff_matrix with
            | none => (g, some PyErr.keyError)
            | some pm =>
              let g := { g with payoff_matrix := pm }
              match st.human_role with
              | none => (g, some PyErr.keyError)
              | some role =>
                let g := { g with human_role := role }
                match st.human_score with
                | none => (g, some PyErr.keyError)
                | some hs =>
                  let g := { g with human_score := hs }
                  match st.computer_score with
                  | none => (g, some PyErr.keyError)
                  | some cs =>
                    let g := { g with computer_score := cs }
                    match st.rounds_played with
                    | none => (g, some PyErr.keyError)
                    | some rp =>
                      let g := { g with rounds_played := rp }
                      match st.human_wins with
                      | none => (g, some PyErr.keyError)
                      | some hw =>
                        let g := { g with human_wins := hw }
                        match st.computer_wins with
                        | none => (g, some PyErr.keyError)
                        | some cw =>
                          let g := { g with computer_wins := cw }
                          calculate_optimal_strategies g hr sr

/-- Agreement of two states on every field `run_simulation`'s loop never
touches (everything except the five score-bookkeeping fields). -/
def eqFrame (a b : GameState) : Prop :=
  a.world_size = b.world_size ∧ a.use_proximity = b.use_proximity ∧
  a.is_2d = b.is_2d ∧ a.rows = b.rows ∧ a.cols = b.cols ∧
  a.place_types = b.place_types ∧ a.payoff_matrix = b.payoff_matrix ∧
  a.human_role = b.human_role ∧
  a.hider_probabilities = b.hider_probabilities ∧
  a.seeker_probabilities = b.seeker_probabilities

/-- A concrete category assignment (`i mod 3`), used for example games. -/
def ptExample : ℕ → Category := fun i => ⟨i % 3, Nat.mod_lt i (by decide)⟩

/-- Row-major rational values of an entry matrix, as the float array holds
them (used to build concrete example games from `generate_payoff_matrix`). -/
def matrixToLists (n : ℕ) (M : ℕ → ℕ → Entry) : List (List ℚ) :=
  (List.range n).map fun h => (List.range n).map fun s => entryToQ (M h s)

/-- The payoff matrix of a 3-position 1D game without proximity with the
diverse assignment `[Hard, Neutral, Easy]` (shown below to be exactly what
`generate_payoff_matrix` produces for that configuration). -/
def exampleMatrix : List (List ℚ) :=
  [[-6, 4, 4], [3/2, -3, 3/2], [1/2, 1/2, -1]]

/-- A freshly reset 3-position 1D game without proximity, the human playing
hider, with the matrix produced by `generate_payoff_matrix` for the diverse
assignment `[Hard, Neutral, Easy]`. -/
def exampleGame : GameState where
  world_size := 3
  use_proximity := false
  is_2d := false
  rows := 1
  cols := 3
  place_types := [0, 1, 2]
  payoff_matrix := exampleMatrix
  human_role := some Role.hider
  human_score := 0
  computer_score := 0
  rounds_played := 0
  human_wins := 0
  computer_wins := 0
  hider_probabilities := [1/3, 1/3, 1/3]
  seeker_probabilities := [1/3, 1/3, 1/3]

/-- The example game after some live play (nonzero scores), used to observe
what `run_simulation` does to pre-existing state. -/
def simExampleGame : GameState :=
  { exampleGame with human_score := 5, computer_score := 2,
                     rounds_played := 7, human_wins := 3, computer_wins := 4 }

/-- A persisted record whose first five keys are present but whose
`place_types` key is missing (e.g. a truncated or externally edited save). -/
def recMissing : SavedRecord where
  world_size := some 9
  use_proximity := some true
  is_2d := some true
  place_types := none
  payoff_matrix := none
  human_role := none
  human_score := none
  computer_score := none
  rounds_played := none
  human_wins := none
  computer_wins := none

/-- A complete persisted record for a 3-position 1D game (as `save_state`
writes it). -/
def recFull : SavedRecord where
  world_size := some 3
  use_proximity := some false
  is_2d := some false
  place_types := some [0, 1, 2]
  payoff_matrix := some [[-6, 4, 4], [3/2, -3, 3/2], [1/2, 1/2, -1]]
  human_role := some (some Role.seeker)
  human_score := some 1
  computer_score := some 2
  rounds_played := some 3
  human_wins := some 1
  computer_wins := some 2

/-- A successful hider-LP oracle outcome with optimal objective `-2`
(game value `2`). -/
def hrOK : LPResult := ⟨true, [1/2, 1/2, 0, -2], -2⟩

/-- A successful seeker-LP oracle outcome with optimal objective `2`, matching
`hrOK` within the `1e-6` duality tolerance. -/
def srOK : LPResult := ⟨true, [1/3, 1/3, 1/3, 2], 2⟩

/-! ## Helper lemmas about the payoff table and the `init` grid dimensions -/

theorem payoffs_found_neg (t : Category) : (payoffs t).1 < 0 := by
  fin_cases t <;> norm_num [payoffs]

theorem payoffs_notfound_pos (t : Category) : 0 < (payoffs t).2 := by
  fin_cases t <;> norm_num [payoffs]

theorem init_rows_four : init_rows 4 true = 2 := by
  have h : Nat.sqrt 4 = 2 := by rw [show (4 : ℕ) = 2 * 2 from rfl, Nat.sqrt_eq]
  simp [init_rows, h, rows_adjust]

theorem init_cols_four : init_cols 4 true = 2 := by
  simp [init_cols, init_rows_four]

theorem init_rows_nine : init_rows 9 true = 3 := by
  have h : Nat.sqrt 9 = 3 := by rw [show (9 : ℕ) = 3 * 3 from rfl, Nat.sqrt_eq]
  simp [init_rows, h, rows_adjust]

theorem init_cols_nine : init_cols 9 true = 3 := by
  simp [init_cols, init_rows_nine]

/-- The literal `exampleMatrix` is exactly the matrix `generate_payoff_matrix`
produces for the 3-position 1D no-proximity game with categories
`[Hard, Neutral, Easy]`. -/
theorem exampleMatrix_eq :
    exampleMatrix =
      matrixToLists 3 (generate_payoff_matrix 3 false false 1 3 ptExample) := by
  norm_num [exampleMatrix, matrixToLists, generate_payoff_matrix, entryToQ,
    ptExample, payoffs, List.range_succ]

/-! ## C5: ordering of the category payoff table -/

/-- C5 counterexample: the claimed chain
`found(Hard) < found(Neutral) < found(Easy) < 0 < notFound(Hard) <
notFound(Neutral) < notFound(Easy)` is false for the `payoffs` table of
`generate_payoff_matrix`: the not-found values are `4, 1.5, 0.5`, which
decrease from Hard to Easy. -/
theorem payoff_table_ordering_refuted :
    ¬((payoffs 0).1 < (payoffs 1).1 ∧ (payoffs 1).1 < (payoffs 2).1 ∧
      (payoffs 2).1 < 0 ∧ 0 < (payoffs 0).2 ∧
      (payoffs 0).2 < (payoffs 1).2 ∧ (payoffs 1).2 < (payoffs 2).2) := by
  norm_num [payoffs]

/-- C5 (amended): the `payoffs` table satisfies
`found(Hard) < found(Neutral) < found(Easy) < 0 < notFound(Easy) <
notFound(Neutral) < notFound(Hard)`: found values increase from Hard to Easy
and the not-found values are positive but decrease from Hard to Easy
(harder places reward the Hider more when not found). -/
theorem payoff_table_ordering :
    (payoffs 0).1 < (payoffs 1).1 ∧ (payoffs 1).1 < (payoffs 2).1 ∧
    (payoffs 2).1 < 0 ∧ 0 < (payoffs 2).2 ∧
    (payoffs 2).2 < (payoffs 1).2 ∧ (payoffs 1).2 < (payoffs 0).2 := by
  norm_num [payoffs]

/-! ## C4: place-type assignment -/

/-- C4 counterexample: for `n = 2 < 3`, `generate_place_types` does not fail
at all (no `InvalidConfiguration` exists in the code): it returns the seed
list `[0, 1, 2]` of length `3 ≠ 2`. -/
theorem generate_place_types_small_n_example :
    generate_place_types 2 [] id = [0, 1, 2] ∧
    (generate_place_types 2 [] id).length ≠ 2 := by decide

/-- C4 (amended): `generate_place_types` never raises: for every `n` it
returns a sequence of length `max n 3` (so exactly `n` when `n ≥ 3`, and the
3-element seed when `n < 3`) in which each of the three categories Hard,
Neutral, Easy appears at least once, for every random draw of the right
length and every shuffle permutation. -/
theorem generate_place_types_diversity (n : ℕ) (draws : List Category)
    (shuffle : List Category → List Category)
    (hsh : ∀ l, List.Perm (shuffle l) l) (hd : draws.length = n - 3) :
    (generate_place_types n draws shuffle).length = max n 3 ∧
    (0 : Category) ∈ generate_place_types n draws shuffle ∧
    (1 : Category) ∈ generate_place_types n draws shuffle ∧
    (2 : Category) ∈ generate_place_types n draws shuffle := by
  have hperm := hsh (pre_shuffle_place_types n draws)
  refine ⟨?_, ?_, ?_, ?_⟩
  · rw [generate_place_types, hperm.length_eq, pre_shuffle_place_types,
      List.length_append]
    by_cases hn : n - 3 > 0 <;> simp [hn, hd] <;> omega
  all_goals
    refine hperm.mem_iff.mpr ?_
    rw [pre_shuffle_place_types]
    simp

theorem generate_place_types_diversity_witness :
    (generate_place_types 3 [] id).length = max 3 3 ∧
    (0 : Category) ∈ generate_place_types 3 [] id ∧
    (1 : Category) ∈ generate_place_types 3 [] id ∧
    (2 : Category) ∈ generate_place_types 3 [] id :=
  generate_place_types_diversity 3 [] id (fun l => List.Perm.refl l) rfl

/-! ## C10: the 2D distance radicand -/

/-- C10: in a 2D 2x2 world, the square-root argument
`(x1-x2)*2 + (y1-y2)*2` of `calculate_distance` is `-2 < 0` for the position
pair `(0, 1)` (the source multiplies by 2 instead of squaring, contradicting
its own Euclidean-distance comment), so the proximity-scaled payoff entry at
`(0, 1)` is NaN rather than a real number. -/
theorem distance_radicand_negative_example :
    calculate_distance true (init_rows 4 true) (init_cols 4 true) 4 0 1 =
      DistVal.grid (-2) 4 ∧
    ((-2 : ℤ) < 0) ∧
    generate_payoff_matrix 4 true true (init_rows 4 true) (init_cols 4 true)
      ptExample 0 1 = Entry.nan := by
  norm_num [calculate_distance, init_rows_four, init_cols_four,
    generate_payoff_matrix, applyProx]

/-! ## C3: the duality cross-check -/

/-- C3: when both LPs report success but the duality cross-check
`|game_value - seeker_result.fun| < 1e-6` fails, `calculate_optimal_strategies`
raises the bare language-level `AssertionError` of line 152 -- not the
dedicated `SolverInconsistency` error the spec requires (no such error exists
anywhere in the code). -/
theorem duality_check_raises_bare_assert :
    (calculate_optimal_strategies exampleGame
        ⟨true, [1/2, 1/2, 0, 0], 0⟩ ⟨true, [1/3, 1/3, 1/3, 5], 5⟩).2 =
      some PyErr.assertionError ∧
    some PyErr.assertionError ≠ some PyErr.solverInconsistency := by
  refine ⟨?_, by decide⟩
  norm_num [calculate_optimal_strategies]

/-! ## C1, C2, C6, C7, C8 counterexamples -/

/-- C1 counterexample: starting from the freshly reset `exampleGame` (both
scores zero), one `play_round` with the human hiding at 0 and the computer
searching at 1 yields `human_score + computer_score = 4 ≠ 0`: the two
scoreboards are magnitude tallies, not a zero-sum pair. -/
theorem scores_sum_not_zero_example :
    exampleGame.human_score = 0 ∧ exampleGame.computer_score = 0 ∧
    exampleGame.rounds_played = 0 ∧
    (play_round exampleGame 0 1).1.human_score +
      (play_round exampleGame 0 1).1.computer_score = 4 ∧
    ((4 : ℚ) ≠ 0) := by
  norm_num [play_round, update_scores, exampleGame, exampleMatrix, matrixAt]

/-- C2 counterexample: in a 2D 3x3 world with proximity enabled, the matrix
entry at `(h, s) = (0, 1)` is NaN (negative square-root radicand), hence not
a well-defined strictly positive real as the claim requires for `h ≠ s`. -/
theorem payoff_matrix_nan_example :
    generate_payoff_matrix 9 true true (init_rows 9 true) (init_cols 9 true)
      ptExample 0 1 = Entry.nan ∧
    generate_payoff_matrix 9 true true (init_rows 9 true) (init_cols 9 true)
      ptExample 0 1 ≠
      Entry.num (entryToQ (generate_payoff_matrix 9 true true (init_rows 9 true)
        (init_cols 9 true) ptExample 0 1)) := by
  have h1 : generate_payoff_matrix 9 true true (init_rows 9 true)
      (init_cols 9 true) ptExample 0 1 = Entry.nan := by
    norm_num [generate_payoff_matrix, calculate_distance, applyProx,
      init_rows_nine, init_cols_nine]
  refine ⟨h1, ?_⟩
  rw [h1]
  exact fun hcontra => Entry.noConfusion hcontra

/-- C6 counterexample: in a 1D 4-position world with proximity, position 0 is
Hard (not-found payoff 4); the entry at the nearer seeker position 1 is
`14/3 > 4` (proximity multiplier `7/6 > 1`), and its magnitude exceeds the
entry `10/3` at the farther position 2: proximity amplifies the payoff at
closer positions instead of damping it. -/
theorem proximity_amplifies_example :
    generate_payoff_matrix 4 true false 1 4 ptExample 0 1 = Entry.num (14/3) ∧
    (payoffs (ptExample 0)).2 = 4 ∧ ((4 : ℚ) < 14/3) ∧
    generate_payoff_matrix 4 true false 1 4 ptExample 0 2 = Entry.num (10/3) ∧
    |(10/3 : ℚ)| < |(14/3 : ℚ)| := by
  norm_num [generate_payoff_matrix, calculate_distance, applyProx, ptExample,
    payoffs, abs]

/-- C7 counterexample: `run_simulation` has no try/finally; when the
computer-move draw of the second simulated round raises, the loop aborts with
the temporary state in place (`human_score = 4` from the first simulated
round) instead of restoring the pre-call `human_score = 5`. -/
theorem simulation_no_restore_on_error_example :
    simExampleGame.human_score = 5 ∧
    (run_simulation simExampleGame
      [(0, Except.ok 1), (0, Except.error ())]).1.human_score = 4 ∧
    (run_simulation simExampleGame
      [(0, Except.ok 1), (0, Except.error ())]).1 ≠ simExampleGame ∧
    (run_simulation simExampleGame
      [(0, Except.ok 1), (0, Except.error ())]).2 = Except.error () := by
  refine ⟨rfl, ?_, ?_, ?_⟩
  · norm_num [run_simulation, sim_loop, snapshot_scores, play_round,
      update_scores, matrixAt, simExampleGame, exampleGame, exampleMatrix]
  · intro hcontra
    have hproj := congrArg GameState.human_score hcontra
    norm_num [run_simulation, sim_loop, snapshot_scores, play_round,
      update_scores, matrixAt, simExampleGame, exampleGame, exampleMatrix]
      at hproj
  · norm_num [run_simulation, sim_loop, snapshot_scores, play_round,
      update_scores, matrixAt, simExampleGame, exampleGame, exampleMatrix]

/-! ## C2 and C6: sign structure and proximity scaling of the matrix -/

/-- In a 1D world (any `rows`/`cols` bookkeeping values) with proximity
enabled, the matrix entries are the exact rationals
`found * (1/2 + 1/2 * d)` on the diagonal and `notFound * (3/2 - d)` off it,
with `d = |h - s| / (n - 1)` the scaled linear distance. -/
theorem gpm_1d_prox (n rows cols : ℕ) (pt : ℕ → Category) (h s : ℕ) :
    generate_payoff_matrix n true false rows cols pt h s =
      (if h = s then
        Entry.num ((payoffs (pt h)).1 *
          (1/2 + 1/2 * (|(h : ℚ) - (s : ℚ)| / ((n : ℚ) - 1))))
      else
        Entry.num ((payoffs (pt h)).2 *
          (3/2 - |(h : ℚ) - (s : ℚ)| / ((n : ℚ) - 1)))) := by
  by_cases hhs : h = s <;>
    simp [generate_payoff_matrix, calculate_distance, applyProx, hhs]

/-- Bounds on the scaled 1D distance: it lies in `[0, 1]` whenever both
positions are in range and `n ≥ 2`. -/
theorem dist1d_bounds (n h s : ℕ) (hn : 2 ≤ n) (hh : h < n) (hs : s < n) :
    0 ≤ |(h : ℚ) - (s : ℚ)| / ((n : ℚ) - 1) ∧
    |(h : ℚ) - (s : ℚ)| / ((n : ℚ) - 1) ≤ 1 := by
  have hn' : (2 : ℚ) ≤ (n : ℚ) := by exact_mod_cast hn
  have hpos : (0 : ℚ) < (n : ℚ) - 1 := by linarith
  have hh' : ((h : ℚ) + 1) ≤ (n : ℚ) := by exact_mod_cast Nat.succ_le_of_lt hh
  have hs' : ((s : ℚ) + 1) ≤ (n : ℚ) := by exact_mod_cast Nat.succ_le_of_lt hs
  have hh0 : (0 : ℚ) ≤ (h : ℚ) := Nat.cast_nonneg h
  have hs0 : (0 : ℚ) ≤ (s : ℚ) := Nat.cast_nonneg s
  refine ⟨div_nonneg (abs_nonneg _) hpos.le, ?_⟩
  rw [div_le_one hpos, abs_le]
  constructor <;> linarith

/-- C2 (amended): for every world with `n ≥ 3` positions, every category
assignment and every configuration except 2D-with-proximity (where the
distance computation can produce NaN entries, see the counterexample), every
matrix entry is a well-defined rational that is strictly negative exactly
when `h = s` and strictly positive exactly when `h ≠ s`. -/
theorem payoff_matrix_sign_structure (n : ℕ) (up i2 : Bool) (rows cols : ℕ)
    (pt : ℕ → Category) (h s : ℕ) (hn : 3 ≤ n)
    (hcfg : ¬(i2 = true ∧ up = true)) (hh : h < n) (hs : s < n) :
    generate_payoff_matrix n up i2 rows cols pt h s =
      Entry.num (entryToQ (generate_payoff_matrix n up i2 rows cols pt h s)) ∧
    (h = s → entryToQ (generate_payoff_matrix n up i2 rows cols pt h s) < 0) ∧
    (h ≠ s → 0 < entryToQ (generate_payoff_matrix n up i2 rows cols pt h s)) := by
  have hn2 : 2 ≤ n := by omega
  cases up with
  | false =>
    by_cases hhs : h = s
    · simp only [generate_payoff_matrix, if_pos hhs, Bool.false_eq_true,
        if_false, entryToQ]
      exact ⟨trivial, fun _ => payoffs_found_neg (pt h), fun hne => absurd hhs hne⟩
    · simp only [generate_payoff_matrix, if_neg hhs, Bool.false_eq_true,
        if_false, entryToQ]
      exact ⟨trivial, fun heq => absurd heq hhs, fun _ => payoffs_notfound_pos (pt h)⟩
  | true =>
    have hi2 : i2 = false := by
      cases i2 with
      | false => rfl
      | true => exact absurd ⟨rfl, rfl⟩ hcfg
    subst hi2
    obtain ⟨hd0, hd1⟩ := dist1d_bounds n h s hn2 hh hs
    rw [gpm_1d_prox]
    by_cases hhs : h = s
    · rw [if_pos hhs]
      have hdiag : |(h : ℚ) - (s : ℚ)| = 0 := by rw [hhs]; simp
      have hneg : (payoffs (pt h)).1 * (1/2 + 1/2 * (|(h : ℚ) - (s : ℚ)| / ((n : ℚ) - 1))) < 0 := by
        rw [hdiag]
        have := payoffs_found_neg (pt h)
        norm_num
        linarith
      exact ⟨rfl, fun _ => hneg, fun hne => absurd hhs hne⟩
    · rw [if_neg hhs]
      have hpos : 0 < (payoffs (pt h)).2 * (3/2 - |(h : ℚ) - (s : ℚ)| / ((n : ℚ) - 1)) := by
        have hb := payoffs_notfound_pos (pt h)
        have hm : (0 : ℚ) < 3/2 - |(h : ℚ) - (s : ℚ)| / ((n : ℚ) - 1) := by linarith
        exact mul_pos hb hm
      exact ⟨rfl, fun heq => absurd heq hhs, fun _ => hpos⟩

theorem payoff_matrix_sign_structure_witness :
    (generate_payoff_matrix 3 true false 1 3 ptExample 0 1 =
      Entry.num (entryToQ (generate_payoff_matrix 3 true false 1 3 ptExample 0 1)) ∧
    ((0 : ℕ) = 1 → entryToQ (generate_payoff_matrix 3 true false 1 3 ptExample 0 1) < 0) ∧
    ((0 : ℕ) ≠ 1 → 0 < entryToQ (generate_payoff_matrix 3 true false 1 3 ptExample 0 1))) ∧
    (generate_payoff_matrix 3 false true 2 2 ptExample 2 2 =
      Entry.num (entryToQ (generate_payoff_matrix 3 false true 2 2 ptExample 2 2)) ∧
    ((2 : ℕ) = 2 → entryToQ (generate_payoff_matrix 3 false true 2 2 ptExample 2 2) < 0) ∧
    ((2 : ℕ) ≠ 2 → 0 < entryToQ (generate_payoff_matrix 3 false true 2 2 ptExample 2 2))) :=
  ⟨payoff_matrix_sign_structure 3 true false 1 3 ptExample 0 1 (by norm_num)
      (by simp) (by norm_num) (by norm_num),
   payoff_matrix_sign_structure 3 false true 2 2 ptExample 2 2 (by norm_num)
      (by simp) (by norm_num) (by norm_num)⟩

/-- C6 (amended): with proximity enabled in a 1D world, every off-diagonal
entry equals `notFound(category[h])` scaled by the multiplier
`1.5 - normalizedDistance`, which ranges over `[1/2, 3/2]` and so can exceed
1; the multiplier is a decreasing function of distance, so the entry at a
closer seeker position has magnitude no SMALLER than at a farther one:
proximity amplifies the not-found reward toward nearby seekers rather than
damping it. -/
theorem proximity_offdiag_structure (n h s1 s2 : ℕ) (pt : ℕ → Category)
    (hn : 2 ≤ n) (hh : h < n) (hs1 : s1 < n) (hs2 : s2 < n)
    (hne1 : h ≠ s1) (hne2 : h ≠ s2)
    (hcloser : |(h : ℚ) - (s1 : ℚ)| ≤ |(h : ℚ) - (s2 : ℚ)|) :
    generate_payoff_matrix n true false 1 n pt h s1 =
      Entry.num ((payoffs (pt h)).2 *
        (3/2 - |(h : ℚ) - (s1 : ℚ)| / ((n : ℚ) - 1))) ∧
    (payoffs (pt h)).2 / 2 ≤
      entryToQ (generate_payoff_matrix n true false 1 n pt h s1) ∧
    entryToQ (generate_payoff_matrix n true false 1 n pt h s1) ≤
      (payoffs (pt h)).2 * (3/2) ∧
    |entryToQ (generate_payoff_matrix n true false 1 n pt h s2)| ≤
      |entryToQ (generate_payoff_matrix n true false 1 n pt h s1)| := by
  have hn' : (2 : ℚ) ≤ (n : ℚ) := by exact_mod_cast hn
  have hpos : (0 : ℚ) < (n : ℚ) - 1 := by linarith
  obtain ⟨h10, h11⟩ := dist1d_bounds n h s1 hn hh hs1
  obtain ⟨h20, h21⟩ := dist1d_bounds n h s2 hn hh hs2
  have hb := payoffs_notfound_pos (pt h)
  have he1 : generate_payoff_matrix n true false 1 n pt h s1 =
      Entry.num ((payoffs (pt h)).2 *
        (3/2 - |(h : ℚ) - (s1 : ℚ)| / ((n : ℚ) - 1))) := by
    rw [gpm_1d_prox, if_neg hne1]
  have he2 : generate_payoff_matrix n true false 1 n pt h s2 =
      Entry.num ((payoffs (pt h)).2 *
        (3/2 - |(h : ℚ) - (s2 : ℚ)| / ((n : ℚ) - 1))) := by
    rw [gpm_1d_prox, if_neg hne2]
  rw [he1, he2]
  simp only [entryToQ]
  have hdle : |(h : ℚ) - (s1 : ℚ)| / ((n : ℚ) - 1) ≤
      |(h : ℚ) - (s2 : ℚ)| / ((n : ℚ) - 1) := by gcongr
  refine ⟨trivial, ?_, ?_, ?_⟩
  · have hm : (1 : ℚ)/2 ≤ 3/2 - |(h : ℚ) - (s1 : ℚ)| / ((n : ℚ) - 1) := by
      linarith
    calc (payoffs (pt h)).2 / 2 = (payoffs (pt h)).2 * (1/2) := by ring
      _ ≤ (payoffs (pt h)).2 *
          (3/2 - |(h : ℚ) - (s1 : ℚ)| / ((n : ℚ) - 1)) :=
        mul_le_mul_of_nonneg_left hm hb.le
  · have hm : 3/2 - |(h : ℚ) - (s1 : ℚ)| / ((n : ℚ) - 1) ≤ (3 : ℚ)/2 := by
      linarith
    exact mul_le_mul_of_nonneg_left hm hb.le
  · have hm1 : (0 : ℚ) < 3/2 - |(h : ℚ) - (s1 : ℚ)| / ((n : ℚ) - 1) := by
      linarith
    have hm2 : (0 : ℚ) < 3/2 - |(h : ℚ) - (s2 : ℚ)| / ((n : ℚ) - 1) := by
      linarith
    rw [abs_of_pos (mul_pos hb hm1), abs_of_pos (mul_pos hb hm2)]
    exact mul_le_mul_of_nonneg_left (by linarith) hb.le

theorem proximity_offdiag_structure_witness :
    generate_payoff_matrix 4 true false 1 4 ptExample 0 1 =
      Entry.num ((payoffs (ptExample 0)).2 *
        (3/2 - |((0 : ℕ) : ℚ) - ((1 : ℕ) : ℚ)| / (((4 : ℕ) : ℚ) - 1))) ∧
    (payoffs (ptExample 0)).2 / 2 ≤
      entryToQ (generate_payoff_matrix 4 true false 1 4 ptExample 0 1) ∧
    entryToQ (generate_payoff_matrix 4 true false 1 4 ptExample 0 1) ≤
      (payoffs (ptExample 0)).2 * (3/2) ∧
    |entryToQ (generate_payoff_matrix 4 true false 1 4 ptExample 0 2)| ≤
      |entryToQ (generate_payoff_matrix 4 true false 1 4 ptExample 0 1)| :=
  proximity_offdiag_structure 4 0 1 2 ptExample (by norm_num) (by norm_num)
    (by norm_num) (by norm_num) (by norm_num) (by norm_num)
    (by norm_num [abs])

/-! ## C1 and C7: round bookkeeping and the simulation loop -/

/-- `play_round` leaves every field other than the five score-bookkeeping
fields untouched. -/
theorem play_round_frame (g : GameState) (hm cm : ℕ) :
    (play_round g hm cm).1.payoff_matrix = g.payoff_matrix ∧
    (play_round g hm cm).1.human_role = g.human_role ∧
    (play_round g hm cm).1.world_size = g.world_size ∧
    (play_round g hm cm).1.use_proximity = g.use_proximity ∧
    (play_round g hm cm).1.is_2d = g.is_2d ∧
    (play_round g hm cm).1.rows = g.rows ∧
    (play_round g hm cm).1.cols = g.cols ∧
    (play_round g hm cm).1.place_types = g.place_types ∧
    (play_round g hm cm).1.hider_probabilities = g.hider_probabilities ∧
    (play_round g hm cm).1.seeker_probabilities = g.seeker_probabilities := by
  unfold play_round update_scores
  by_cases hrole : g.human_role = some Role.hider
  · by_cases hsc : matrixAt g.payoff_matrix hm cm > 0 <;> simp [hrole, hsc]
  · by_cases hsc : matrixAt g.payoff_matrix cm hm > 0 <;> simp [hrole, hsc]

/-- One round adds the magnitude of the matrix-sourced payoff to the sum of
the two scoreboards. -/
theorem play_round_score_sum (g : GameState) (hm cm : ℕ) :
    (play_round g hm cm).1.human_score + (play_round g hm cm).1.computer_score =
      g.human_score + g.computer_score + |roundScore g (hm, cm)| := by
  by_cases hrole : g.human_role = some Role.hider
  · by_cases hsc : matrixAt g.payoff_matrix hm cm > 0
    · simp [play_round, update_scores, roundScore, hrole, hsc, abs_of_pos hsc]
      try ring
    · simp [play_round, update_scores, roundScore, hrole, hsc,
        abs_of_nonpos (not_lt.mp hsc)]
      try ring
  · by_cases hsc : matrixAt g.payoff_matrix cm hm > 0
    · simp [play_round, update_scores, roundScore, hrole, hsc, abs_of_pos hsc]
      try ring
    · simp [play_round, update_scores, roundScore, hrole, hsc,
        abs_of_nonpos (not_lt.mp hsc)]
      try ring

/-- One round increments exactly one of the two win counters. -/
theorem play_round_wins_sum (g : GameState) (hm cm : ℕ) :
    (play_round g hm cm).1.human_wins + (play_round g hm cm).1.computer_wins =
      g.human_wins + g.computer_wins + 1 := by
  unfold play_round update_scores
  by_cases hrole : g.human_role = some Role.hider
  · by_cases hsc : matrixAt g.payoff_matrix hm cm > 0 <;> simp [hrole, hsc] <;> omega
  · by_cases hsc : matrixAt g.payoff_matrix cm hm > 0 <;> simp [hrole, hsc] <;> omega

/-- One round increments `rounds_played`. -/
theorem play_round_rounds (g : GameState) (hm cm : ℕ) :
    (play_round g hm cm).1.rounds_played = g.rounds_played + 1 := by
  unfold play_round update_scores
  by_cases hrole : g.human_role = some Role.hider
  · by_cases hsc : matrixAt g.payoff_matrix hm cm > 0 <;> simp [hrole, hsc]
  · by_cases hsc : matrixAt g.payoff_matrix cm hm > 0 <;> simp [hrole, hsc]

/-- Neither scoreboard ever decreases across a round. -/
theorem play_round_score_mono (g : GameState) (hm cm : ℕ) :
    g.human_score ≤ (play_round g hm cm).1.human_score ∧
    g.computer_score ≤ (play_round g hm cm).1.computer_score := by
  by_cases hrole : g.human_role = some Role.hider
  · by_cases hsc : matrixAt g.payoff_matrix hm cm > 0
    · simp [play_round, update_scores, hrole, hsc]
      try linarith
    · simp [play_round, update_scores, hrole, hsc]
      try linarith [not_lt.mp hsc]
  · by_cases hsc : matrixAt g.payoff_matrix cm hm > 0
    · simp [play_round, update_scores, hrole, hsc]
      try linarith
    · simp [play_round, update_scores, hrole, hsc]
      try linarith [not_lt.mp hsc]

/-- The payoff a later round reads does not depend on the score bookkeeping
of earlier rounds (role and matrix are preserved). -/
theorem roundScore_play_round (g : GameState) (hm cm : ℕ) (mv : ℕ × ℕ) :
    roundScore ((play_round g hm cm).1) mv = roundScore g mv := by
  unfold roundScore
  rw [(play_round_frame g hm cm).1, (play_round_frame g hm cm).2.1]

/-- Accounting invariant of an arbitrary round sequence: the scoreboard sum
grows by the absolute payoffs, the win counters add up to the rounds played,
and neither scoreboard decreases. -/
theorem playRounds_spec (ms : List (ℕ × ℕ)) : ∀ g : GameState,
    ((playRounds g ms).human_score + (playRounds g ms).computer_score =
      g.human_score + g.computer_score +
        (ms.map fun mv => |roundScore g mv|).sum) ∧
    ((playRounds g ms).human_wins + (playRounds g ms).computer_wins =
      g.human_wins + g.computer_wins + ms.length) ∧
    ((playRounds g ms).rounds_played = g.rounds_played + ms.length) ∧
    (g.human_score ≤ (playRounds g ms).human_score) ∧
    (g.computer_score ≤ (playRounds g ms).computer_score) := by
  induction ms with
  | nil => intro g; simp [playRounds]
  | cons mv rest ih =>
    intro g
    obtain ⟨ih1, ih2, ih3, ih4, ih5⟩ := ih (play_round g mv.1 mv.2).1
    have hunf : playRounds g (mv :: rest) =
        playRounds (play_round g mv.1 mv.2).1 rest := rfl
    have hstep := play_round_score_sum g mv.1 mv.2
    have hwins := play_round_wins_sum g mv.1 mv.2
    have hrounds := play_round_rounds g mv.1 mv.2
    have hmono := play_round_score_mono g mv.1 mv.2
    have hrs : ∀ mv2 : ℕ × ℕ,
        roundScore ((play_round g mv.1 mv.2).1) mv2 = roundScore g mv2 :=
      roundScore_play_round g mv.1 mv.2
    simp only [hrs] at ih1
    rw [hunf]
    refine ⟨?_, ?_, ?_, ?_, ?_⟩
    · rw [ih1, List.map_cons, List.sum_cons]
      rw [show roundScore g mv = roundScore g (mv.1, mv.2) from rfl]
      linarith
    · rw [ih2, hwins, List.length_cons]
      omega
    · rw [ih3, hrounds, List.length_cons]
      omega
    · exact le_trans hmono.1 ih4
    · exact le_trans hmono.2 ih5

/-- C1 (amended): starting from a freshly reset game, after every sequence of
`play_round` calls both accumulated scores are nonnegative and their sum
equals the sum of the absolute payoffs of the rounds played (each round
credits `|payoff|` to that round's winner), so the sum is zero only when
every payoff was zero -- the two scoreboards are magnitude tallies, not
exact negations of each other; the win counters add up to `rounds_played`. -/
theorem scores_accounting (g : GameState) (ms : List (ℕ × ℕ))
    (h1 : g.human_score = 0) (h2 : g.computer_score = 0)
    (h3 : g.human_wins = 0) (h4 : g.computer_wins = 0)
    (h5 : g.rounds_played = 0) :
    (0 ≤ (playRounds g ms).human_score) ∧
    (0 ≤ (playRounds g ms).computer_score) ∧
    ((playRounds g ms).human_score + (playRounds g ms).computer_score =
      (ms.map fun mv => |roundScore g mv|).sum) ∧
    ((playRounds g ms).human_wins + (playRounds g ms).computer_wins =
      ms.length) ∧
    ((playRounds g ms).rounds_played = ms.length) := by
  obtain ⟨a, b, c, d, e⟩ := playRounds_spec ms g
  refine ⟨?_, ?_, ?_, ?_, ?_⟩
  · rw [← h1]; exact d
  · rw [← h2]; exact e
  · rw [a, h1, h2]; ring
  · rw [b, h3, h4]; omega
  · rw [c, h5]; omega

theorem scores_accounting_witness :
    (0 ≤ (playRounds exampleGame [(0, 1), (2, 2)]).human_score) ∧
    (0 ≤ (playRounds exampleGame [(0, 1), (2, 2)]).computer_score) ∧
    ((playRounds exampleGame [(0, 1), (2, 2)]).human_score +
      (playRounds exampleGame [(0, 1), (2, 2)]).computer_score =
      (([(0, 1), (2, 2)] : List (ℕ × ℕ)).map
        fun mv => |roundScore exampleGame mv|).sum) ∧
    ((playRounds exampleGame [(0, 1), (2, 2)]).human_wins +
      (playRounds exampleGame [(0, 1), (2, 2)]).computer_wins =
      ([(0, 1), (2, 2)] : List (ℕ × ℕ)).length) ∧
    ((playRounds exampleGame [(0, 1), (2, 2)]).rounds_played =
      ([(0, 1), (2, 2)] : List (ℕ × ℕ)).length) :=
  scores_accounting exampleGame [(0, 1), (2, 2)] rfl rfl rfl rfl rfl

theorem eqFrame_trans {a b c : GameState} (hab : eqFrame a b)
    (hbc : eqFrame b c) : eqFrame a c := by
  obtain ⟨a1, a2, a3, a4, a5, a6, a7, a8, a9, a10⟩ := hab
  obtain ⟨b1, b2, b3, b4, b5, b6, b7, b8, b9, b10⟩ := hbc
  exact ⟨a1.trans b1, a2.trans b2, a3.trans b3, a4.trans b4, a5.trans b5,
         a6.trans b6, a7.trans b7, a8.trans b8, a9.trans b9, a10.trans b10⟩

theorem play_round_eqFrame (g : GameState) (hm cm : ℕ) :
    eqFrame ((play_round g hm cm).1) g := by
  obtain ⟨p1, p2, p3, p4, p5, p6, p7, p8, p9, p10⟩ := play_round_frame g hm cm
  exact ⟨p3, p4, p5, p6, p7, p8, p1, p2, p9, p10⟩

/-- On the normal exit of the simulation loop the final state carries the
snapshot's five score fields and the frame of the loop's entry state. -/
theorem sim_loop_ok (o : ScoreSnapshot) (rounds : ℕ) :
    ∀ (l : List (ℕ × Except Unit ℕ)) (cur g' : GameState) (res : SimResult),
      sim_loop o rounds cur l = (g', Except.ok res) →
      eqFrame g' cur ∧ g'.human_score = o.human_score ∧
      g'.computer_score = o.computer_score ∧
      g'.rounds_played = o.rounds_played ∧ g'.human_wins = o.human_wins ∧
      g'.computer_wins = o.computer_wins := by
  intro l
  induction l with
  | nil =>
    intro cur g' res h
    have hg' : restore_scores cur o = g' := congrArg Prod.fst h
    subst hg'
    refine ⟨?_, rfl, rfl, rfl, rfl, rfl⟩
    exact ⟨rfl, rfl, rfl, rfl, rfl, rfl, rfl, rfl, rfl, rfl⟩
  | cons item rest ih =>
    intro cur g' res h
    obtain ⟨hm, draw⟩ := item
    cases draw with
    | error e => simp [sim_loop] at h
    | ok cm =>
      have h' : sim_loop o rounds (play_round cur hm cm).1 rest =
          (g', Except.ok res) := h
      obtain ⟨hf, r2, r3, r4, r5, r6⟩ := ih (play_round cur hm cm).1 g' res h'
      exact ⟨eqFrame_trans hf (play_round_eqFrame cur hm cm), r2, r3, r4, r5, r6⟩

/-- C7 (amended): `run_simulation` restores the full score state and leaves
every other field unchanged on the normal-return path only: a successful
simulation returns with the live state exactly equal to the pre-call state.
When an exception is raised mid-loop there is no restoration (no try/finally
exists) -- see the counterexample. -/
theorem run_simulation_restores_on_success (g : GameState)
    (oracle : List (ℕ × Except Unit ℕ)) (g' : GameState) (res : SimResult)
    (h : run_simulation g oracle = (g', Except.ok res)) : g' = g := by
  unfold run_simulation at h
  obtain ⟨hf, r2, r3, r4, r5, r6⟩ :=
    sim_loop_ok (snapshot_scores g) oracle.length oracle
      { g with human_score := 0, computer_score := 0, human_wins := 0,
               computer_wins := 0, rounds_played := 0 } g' res h
  obtain ⟨f1, f2, f3, f4, f5, f6, f7, f8, f9, f10⟩ := hf
  apply GameState.ext <;> simp_all [snapshot_scores]

theorem run_simulation_restores_on_success_witness :
    (run_simulation simExampleGame [(0, Except.ok 1)]).1 = simExampleGame :=
  run_simulation_restores_on_success simExampleGame [(0, Except.ok 1)]
    ((run_simulation simExampleGame [(0, Except.ok 1)]).1) ⟨4, 0, 1, 0, 1⟩
    (by norm_num [run_simulation, sim_loop, snapshot_scores, restore_scores,
      play_round, update_scores, matrixAt, simExampleGame, exampleGame,
      exampleMatrix])

/-- C8 counterexample: loading a record whose `place_types` key is missing
raises `KeyError` only after `world_size`, `use_proximity`, `is_2d`, `rows`
and `cols` have already been overwritten: the live state is left partially
overwritten (`world_size` becomes 9, the pre-call value was 3). -/
theorem load_state_partial_overwrite_example :
    exampleGame.world_size = 3 ∧
    (load_state exampleGame (Except.ok recMissing) hrOK srOK).2 =
      some PyErr.keyError ∧
    (load_state exampleGame (Except.ok recMissing) hrOK srOK).1.world_size = 9 ∧
    (load_state exampleGame (Except.ok recMissing) hrOK srOK).1 ≠
      exampleGame := by
  refine ⟨rfl, ?_, ?_, ?_⟩
  · simp [load_state, recMissing]
  · simp [load_state, recMissing]
  · intro hcontra
    have hproj := congrArg GameState.world_size hcontra
    simp [load_state, recMissing, exampleGame] at hproj

/-! ## C8 and C9: the persistence boundary -/

/-- C8 (amended): `load_state` leaves the live state untouched when the
failure happens at file-read/JSON-parse time, but it is not atomic for
schema failures: the persisted fields are assigned to the live object one at
a time, so a record missing `place_types` fails with `KeyError` after
`world_size`, `use_proximity`, `is_2d` (and the recomputed `rows`, `cols`)
have already been overwritten, while all later fields keep their pre-call
values. -/
theorem load_state_failure_paths (g : GameState) (hr sr : LPResult)
    (rec : SavedRecord) (ws : ℕ) (up i2 : Bool)
    (h1 : rec.world_size = some ws) (h2 : rec.use_proximity = some up)
    (h3 : rec.is_2d = some i2) (h4 : rec.place_types = none) :
    load_state g (Except.error ()) hr sr = (g, some PyErr.ioError) ∧
    load_state g (Except.ok rec) hr sr =
      ({ g with world_size := ws, use_proximity := up, is_2d := i2,
                rows := if i2 then Nat.sqrt ws else 1,
                cols := if i2 then ws / (if i2 then Nat.sqrt ws else 1)
                        else ws },
       some PyErr.keyError) := by
  refine ⟨rfl, ?_⟩
  simp only [load_state, h1, h2, h3, h4]

theorem load_state_failure_paths_witness :
    load_state exampleGame (Except.error ()) hrOK srOK =
      (exampleGame, some PyErr.ioError) ∧
    load_state exampleGame (Except.ok recMissing) hrOK srOK =
      ({ exampleGame with world_size := 9, use_proximity := true,
                          is_2d := true,
                          rows := if true then Nat.sqrt 9 else 1,
                          cols := if true then 9 / (if true then Nat.sqrt 9 else 1)
                                  else 9 },
       some PyErr.keyError) :=
  load_state_failure_paths exampleGame hrOK srOK recMissing 9 true true
    rfl rfl rfl rfl

/-- When `calculate_optimal_strategies` returns without raising, the strategy
vectors in the returned state are exactly what the LP oracle outcomes
dictate: the corresponding `x[:-1]` on success, the pre-existing vector when
that LP reported failure. -/
theorem calc_opt_none_strategies (g g2 : GameState) (hr sr : LPResult)
    (h : calculate_optimal_strategies g hr sr = (g2, none)) :
    g2.hider_probabilities =
      (if hr.success then hr.x.dropLast else g.hider_probabilities) ∧
    g2.seeker_probabilities =
      (if sr.success then sr.x.dropLast else g.seeker_probabilities) := by
  unfold calculate_optimal_strategies at h
  by_cases hsr : sr.success
  · by_cases hhr : hr.success
    · simp only [hsr, hhr, if_true] at h
      by_cases hcl : |(-hr.objFun) - sr.objFun| < 1/1000000
      · rw [if_pos hcl] at h
        have hg2 : ({ { g with hider_probabilities := hr.x.dropLast } with
            seeker_probabilities := sr.x.dropLast } : GameState) = g2 :=
          congrArg Prod.fst h
        rw [← hg2]
        simp [hhr, hsr]
      · rw [if_neg hcl] at h
        have : (some PyErr.assertionError : Option PyErr) = none :=
          congrArg Prod.snd h
        exact absurd this (by simp)
    · simp only [hsr, hhr, if_true, Bool.false_eq_true, if_false] at h
      have : (some PyErr.nameError : Option PyErr) = none :=
        congrArg Prod.snd h
      exact absurd this (by simp)
  · simp only [hsr, Bool.false_eq_true, if_false] at h
    have hg2 : (if hr.success then
        { g with hider_probabilities := hr.x.dropLast } else g) = g2 :=
      congrArg Prod.fst h
    by_cases hhr : hr.success
    · rw [if_pos hhr] at hg2
      rw [← hg2]
      simp [hhr, hsr]
    · rw [if_neg hhr] at hg2
      rw [← hg2]
      simp [hhr, hsr]

/-- `load_state` on a record with all keys present is the field-by-field
assignment followed by the strategy recomputation. -/
theorem load_state_ok_eq (g : GameState) (st : SavedRecord) (hr sr : LPResult)
    (ws : ℕ) (up i2 : Bool) (pt : List ℕ) (pm : List (List ℚ))
    (role : Option Role) (hs cs : ℚ) (rp hw cw : ℕ)
    (e1 : st.world_size = some ws) (e2 : st.use_proximity = some up)
    (e3 : st.is_2d = some i2) (e4 : st.place_types = some pt)
    (e5 : st.payoff_matrix = some pm) (e6 : st.human_role = some role)
    (e7 : st.human_score = some hs) (e8 : st.computer_score = some cs)
    (e9 : st.rounds_played = some rp) (e10 : st.human_wins = some hw)
    (e11 : st.computer_wins = some cw) :
    load_state g (Except.ok st) hr sr =
      calculate_optimal_strategies
        { g with world_size := ws, use_proximity := up, is_2d := i2,
                 rows := if i2 then Nat.sqrt ws else 1,
                 cols := if i2 then ws / (if i2 then Nat.sqrt ws else 1) else ws,
                 place_types := pt, payoff_matrix := pm, human_role := role,
                 human_score := hs, computer_score := cs, rounds_played := rp,
                 human_wins := hw, computer_wins := cw } hr sr := by
  simp only [load_state, e1, e2, e3, e4, e5, e6, e7, e8, e9, e10, e11]

/-- C9: after every successful `load_state`, the strategy vectors in memory
are exactly the output of running `calculate_optimal_strategies` on the
loaded state: the solver's `x[:-1]` for each LP that succeeded, the pre-call
vector where an LP silently failed -- and in no case any data taken from the
persisted record, which carries no strategy fields at all. -/
theorem load_state_recomputes_strategies (g : GameState)
    (file : Except Unit SavedRecord) (hr sr : LPResult) (g' : GameState)
    (h : load_state g file hr sr = (g', none)) :
    g'.hider_probabilities =
      (if hr.success then hr.x.dropLast else g.hider_probabilities) ∧
    g'.seeker_probabilities =
      (if sr.success then sr.x.dropLast else g.seeker_probabilities) := by
  cases file with
  | error e => simp [load_state] at h
  | ok st =>
    rcases hws : st.world_size with _ | ws
    · simp [load_state, hws] at h
    rcases hup : st.use_proximity with _ | up
    · simp [load_state, hws, hup] at h
    rcases hi2 : st.is_2d with _ | i2
    · simp [load_state, hws, hup, hi2] at h
    rcases hpt : st.place_types with _ | pt
    · simp [load_state, hws, hup, hi2, hpt] at h
    rcases hpm : st.payoff_matrix with _ | pm
    · simp [load_state, hws, hup, hi2, hpt, hpm] at h
    rcases hrole : st.human_role with _ | role
    · simp [load_state, hws, hup, hi2, hpt, hpm, hrole] at h
    rcases hhs : st.human_score with _ | hs
    · simp [load_state, hws, hup, hi2, hpt, hpm, hrole, hhs] at h
    rcases hcs : st.computer_score with _ | cs
    · simp [load_state, hws, hup, hi2, hpt, hpm, hrole, hhs, hcs] at h
    rcases hrp : st.rounds_played with _ | rp
    · simp [load_state, hws, hup, hi2, hpt, hpm, hrole, hhs, hcs, hrp] at h
    rcases hhw : st.human_wins with _ | hw
    · simp [load_state, hws, hup, hi2, hpt, hpm, hrole, hhs, hcs, hrp, hhw] at h
    rcases hcw : st.computer_wins with _ | cw
    · simp [load_state, hws, hup, hi2, hpt, hpm, hrole, hhs, hcs, hrp, hhw,
        hcw] at h
    rw [load_state_ok_eq g st hr sr ws up i2 pt pm role hs cs rp hw cw
      hws hup hi2 hpt hpm hrole hhs hcs hrp hhw hcw] at h
    have hres := calc_opt_none_strategies _ _ hr sr h
    simpa using hres

theorem load_state_recomputes_strategies_witness :
    (load_state exampleGame (Except.ok recFull) hrOK srOK).1.hider_probabilities =
      (if hrOK.success then hrOK.x.dropLast
       else exampleGame.hider_probabilities) ∧
    (load_state exampleGame (Except.ok recFull) hrOK srOK).1.seeker_probabilities =
      (if srOK.success then srOK.x.dropLast
       else exampleGame.seeker_probabilities) :=
  load_state_recomputes_strategies exampleGame (Except.ok recFull) hrOK srOK
    ((load_state exampleGame (Except.ok recFull) hrOK srOK).1)
    (by norm_num [load_state, recFull, calculate_optimal_strategies, hrOK,
      srOK])

end HideAndSeek
